import Mathlib

/-!
Shallow embedding of `src/holography/quantum_artifacts.py` and verification of
its specification claims.

Modelling conventions:
* float arrays are modelled as exact arithmetic: `List ℚ` for the purely
  rational computations (`jnp.gradient`, `compute_mqp`), and `Fin N → ℂ` /
  `ℝ` where Fourier transforms and logarithms appear;
* `jnp.fft.fft` / `jnp.fft.ifft` are the discrete Fourier transform and its
  inverse with numpy's conventions;
* Python calls that raise `TypeError` (e.g. `jax.grad` applied to a
  non-callable, `jax.random.normal` invoked without its required `key`
  argument and with the unsupported keyword `size`) are modelled with
  `Except JaxError`.
-/

/-- Dynamic Python values reaching `jax.grad` and the scalar multiplication in
`compute_bohmian_velocity`: an array of floats, or a function (callable). -/
inductive PyVal where
  | arr : List ℚ → PyVal
  | fn : (List ℚ → List ℚ) → PyVal

/-- The runtime error raised by the array library on an ill-typed call. -/
inductive JaxError where
  | typeError : JaxError
deriving DecidableEq

/-- Embedding of `jax.grad`: it validates that its argument is callable (`check_callable`) and
raises `TypeError` otherwise; on a callable it returns the derivative
function, supplied here by the ambient autodiff engine `autodiff`. -/
def jax_grad (autodiff : (List ℚ → List ℚ) → (List ℚ → List ℚ)) :
    PyVal → Except JaxError PyVal
  | .fn f => .ok (.fn (autodiff f))
  | .arr _ => .error .typeError

/-- Python `c * v` for a float `c`: elementwise on an array; a `TypeError` on
a function object (no `__rmul__` between float and function). -/
def scalar_mul (c : ℚ) : PyVal → Except JaxError PyVal
  | .arr xs => .ok (.arr (xs.map (fun x => c * x)))
  | .fn _ => .error .typeError

/-- Embedding of `compute_bohmian_velocity` (quantum_artifacts.py:35-47):
`gradient_phase = grad(phase_field)`, then
`velocity = (hbar / mass) * gradient_phase`. -/
def compute_bohmian_velocity
    (autodiff : (List ℚ → List ℚ) → (List ℚ → List ℚ))
    (phase_field : PyVal) (mass : ℚ) (hbar : ℚ := 1) :
    Except JaxError PyVal :=
  match jax_grad autodiff phase_field with
  | .error e => .error e
  | .ok gradient_phase => scalar_mul (hbar / mass) gradient_phase

/-- Embedding of the call `jax.random.normal(size=...)` as written at
quantum_artifacts.py:92.  The library signature is
`normal(key, shape=(), dtype=...)`: `key` is a required argument and `size`
is not a parameter, so Python's call binding raises `TypeError` before any
sampling happens.  `sample` is the sampler that would run on a valid call. -/
def jax_random_normal_call (sample : List ℕ → List ℚ)
    (key : Option ℕ) (size_kw : Option (List ℕ)) : Except JaxError (List ℚ) :=
  match size_kw with
  | some _ => .error .typeError
  | none =>
    match key with
    | none => .error .typeError
    | some k => .ok (sample [k])

/-- Embedding of `holographic_decoherence` (quantum_artifacts.py:83-93):
`noise = jax.random.normal(size=phase_field.shape) * decoherence_rate`,
`return phase_field + noise`. -/
def holographic_decoherence (sample : List ℕ → List ℚ)
    (phase_field : List ℚ) (decoherence_rate : ℚ) : Except JaxError (List ℚ) :=
  match jax_random_normal_call sample none (some [phase_field.length]) with
  | .error e => .error e
  | .ok noise =>
      .ok (List.zipWith (fun p n => p + n * decoherence_rate) phase_field noise)

/-- Embedding of `jnp.gradient` on a one-dimensional array with unit spacing: one-sided
differences at the two edges, central differences inside; raises for arrays
with fewer than two entries. -/
def np_gradient (f : List ℚ) : Option (List ℚ) :=
  if f.length < 2 then none
  else some ((List.range f.length).map fun i =>
    if i = 0 then f.getD 1 0 - f.getD 0 0
    else if i = f.length - 1 then
      f.getD (f.length - 1) 0 - f.getD (f.length - 2) 0
    else (f.getD (i + 1) 0 - f.getD (i - 1) 0) / 2)

/-- Embedding of `compute_mqp` (quantum_artifacts.py:51-63):
`laplacian = jnp.gradient(jnp.gradient(density_field))`, then
`-(hbar**2 / (2*mass)) * (laplacian / density_field)` elementwise. -/
def compute_mqp (density_field : List ℚ) (hbar : ℚ := 1) (mass : ℚ := 1) :
    Option (List ℚ) :=
  match np_gradient density_field with
  | none => none
  | some g =>
    match np_gradient g with
    | none => none
    | some laplacian =>
      some (List.zipWith (fun l d => -(hbar ^ 2 / (2 * mass)) * (l / d))
        laplacian density_field)

/-- Modelled from the spec: the claim's formula for the MQP,
`-(hbar^2 / (2*mass)) * gradient(gradient(density_field)) / density_field`
elementwise, with `gradient` the array library's discrete gradient. -/
def mqp_spec (density_field : List ℚ) (hbar mass : ℚ) : Option (List ℚ) :=
  match (np_gradient density_field).bind np_gradient with
  | none => none
  | some laplacian =>
      some (List.zipWith (fun l d => -(hbar ^ 2) / (2 * mass) * l / d)
        laplacian density_field)

theorem np_gradient_length {f g : List ℚ} (h : np_gradient f = some g) :
    g.length = f.length := by
  unfold np_gradient at h
  split at h
  · exact absurd h (by simp)
  · simp only [Option.some.injEq] at h
    subst h
    simp

theorem compute_mqp_eq_some (d : List ℚ) (h m : ℚ) {g lap : List ℚ}
    (hg : np_gradient d = some g) (hlap : np_gradient g = some lap) :
    compute_mqp d h m =
      some (List.zipWith (fun l x => -(h ^ 2 / (2 * m)) * (l / x)) lap d) := by
  unfold compute_mqp
  rw [hg]
  simp only []
  rw [hlap]

/-- C3: every call of `compute_bohmian_velocity` on a phase-field array raises
`TypeError` (`jax.grad` rejects the non-callable array; even past that, the
float-times-function product would raise), and every call of
`holographic_decoherence` raises `TypeError` (`jax.random.normal` is invoked
without its required `key` and with the unsupported keyword `size`).  So no
input ever yields the velocity array or decohered field the claim promises:
the code contradicts its own docstrings. -/
theorem bohmian_and_decoherence_raise_type_error :
    (∀ (autodiff : (List ℚ → List ℚ) → (List ℚ → List ℚ)) (xs : List ℚ)
      (mass hbar : ℚ),
      compute_bohmian_velocity autodiff (.arr xs) mass hbar =
        .error .typeError) ∧
    (∀ (sample : List ℕ → List ℚ) (pf : List ℚ) (rate : ℚ),
      holographic_decoherence sample pf rate = .error .typeError) :=
  ⟨fun _ _ _ _ => rfl, fun _ _ _ => rfl⟩

/-- C4: `holographic_decoherence(phase_field, 0)` does not return the input
unchanged — the call to `jax.random.normal` raises `TypeError` before the
rate is ever applied, for every input and in particular at rate `0`. -/
theorem decoherence_zero_rate_raises :
    ∀ (sample : List ℕ → List ℚ) (pf : List ℚ),
      holographic_decoherence sample pf 0 = .error .typeError :=
  fun _ _ => rfl

/-- C5: determinism / purity.  All functions of the module are embedded as
pure total functions of their arguments, and the only two that touch an
ambient environment at all — `holographic_decoherence` (the RNG sampler
behind `jax.random.normal`) and `compute_bohmian_velocity` (the autodiff
engine behind `jax.grad`) — give results independent of that environment,
because both calls fail before reaching it.  Hence two calls on equal inputs
always produce equal outcomes and no shared state is read or written. -/
theorem decoherence_and_bohmian_env_independent :
    (∀ (s₁ s₂ : List ℕ → List ℚ) (pf : List ℚ) (rate : ℚ),
      holographic_decoherence s₁ pf rate = holographic_decoherence s₂ pf rate) ∧
    (∀ (a₁ a₂ : (List ℚ → List ℚ) → (List ℚ → List ℚ)) (xs : List ℚ)
      (mass hbar : ℚ),
      compute_bohmian_velocity a₁ (.arr xs) mass hbar =
        compute_bohmian_velocity a₂ (.arr xs) mass hbar) :=
  ⟨fun _ _ _ _ => rfl, fun _ _ _ _ _ => rfl⟩

/-- C7: on a density field with a zero entry (length at least 2 so that the
gradients are defined), `compute_mqp` still completes: it performs the
elementwise division `laplacian / density_field` unconditionally, with no
guard or error handling around the zero entries, and returns the resulting
array. -/
theorem mqp_zero_division_unguarded (d : List ℚ) (h m : ℚ)
    (hlen : 2 ≤ d.length)
    (hz : ∃ i, i < d.length ∧ d.getD i 0 = 0) :
    ∃ lap out, (np_gradient d).bind np_gradient = some lap ∧
      compute_mqp d h m = some out ∧ out.length = d.length ∧
      ∀ i, i < d.length →
        out.getD i 0 = -(h ^ 2 / (2 * m)) * (lap.getD i 0 / d.getD i 0) := by
  obtain ⟨g, hg⟩ : ∃ g, np_gradient d = some g := by
    unfold np_gradient
    rw [if_neg (by omega)]
    exact ⟨_, rfl⟩
  have hglen : g.length = d.length := np_gradient_length hg
  obtain ⟨lap, hlap⟩ : ∃ lap, np_gradient g = some lap := by
    unfold np_gradient
    rw [if_neg (by omega)]
    exact ⟨_, rfl⟩
  have hlaplen : lap.length = d.length := (np_gradient_length hlap).trans hglen
  refine ⟨lap, _, by rw [hg]; exact hlap, compute_mqp_eq_some d h m hg hlap,
    ?_, ?_⟩
  · rw [List.length_zipWith, hlaplen, Nat.min_self]
  · intro i hi
    have hiz : i < (List.zipWith
        (fun l x => -(h ^ 2 / (2 * m)) * (l / x)) lap d).length := by
      rw [List.length_zipWith, hlaplen, Nat.min_self]
      exact hi
    rw [List.getD_eq_getElem _ _ hiz, List.getElem_zipWith,
      List.getD_eq_getElem _ _ (by omega : i < lap.length),
      List.getD_eq_getElem _ _ hi]

/-- C8: `compute_mqp` agrees with the specification formula
`-(hbar^2 / (2*mass)) * gradient(gradient(density_field)) / density_field`
(with `gradient` the library's discrete gradient) for every density field
with no zero entries and positive `hbar` and `mass`; the two expressions
differ only in the association of the scalar factor with the division. -/
theorem mqp_matches_spec_formula (d : List ℚ) (h m : ℚ)
    (hd : ∀ x ∈ d, x ≠ 0) (hh : 0 < h) (hm : 0 < m) :
    compute_mqp d h m = mqp_spec d h m := by
  unfold compute_mqp mqp_spec
  cases hg : np_gradient d with
  | none => rfl
  | some g =>
    simp only [Option.some_bind]
    cases hlap : np_gradient g with
    | none => rfl
    | some lap =>
      have hfun : (fun l x : ℚ => -(h ^ 2 / (2 * m)) * (l / x)) =
          fun l x : ℚ => -(h ^ 2) / (2 * m) * l / x := by
        funext l x
        ring
      rw [hfun]

/-- Witness for C7 at the concrete density field `[0, 1, 2]` (zero entry at
index 0) with `hbar = mass = 1`. -/
theorem mqp_zero_division_unguarded_witness :
    (2 ≤ ([0, 1, 2] : List ℚ).length ∧
      ∃ i, i < ([0, 1, 2] : List ℚ).length ∧
        ([0, 1, 2] : List ℚ).getD i 0 = 0) ∧
    (∃ lap out, (np_gradient [0, 1, 2]).bind np_gradient = some lap ∧
      compute_mqp [0, 1, 2] 1 1 = some out ∧
      out.length = ([0, 1, 2] : List ℚ).length ∧
      ∀ i, i < ([0, 1, 2] : List ℚ).length →
        out.getD i 0 =
          -((1 : ℚ) ^ 2 / (2 * 1)) *
            (lap.getD i 0 / ([0, 1, 2] : List ℚ).getD i 0)) :=
  ⟨⟨by decide, ⟨0, by decide, by decide⟩⟩,
    mqp_zero_division_unguarded [0, 1, 2] 1 1 (by decide)
      ⟨0, by decide, by decide⟩⟩

/-- Witness for C8 at the concrete density field `[1, 2, 4]` (no zero
entries) with `hbar = mass = 1`. -/
theorem mqp_matches_spec_formula_witness :
    ((∀ x ∈ ([1, 2, 4] : List ℚ), x ≠ 0) ∧ (0 : ℚ) < 1) ∧
    compute_mqp [1, 2, 4] 1 1 = mqp_spec [1, 2, 4] 1 1 :=
  ⟨⟨by decide, by decide⟩,
    mqp_matches_spec_formula [1, 2, 4] 1 1 (by decide) (by decide) (by decide)⟩

/-- Embedding of `jnp.fft.fft` (numpy convention): `X k = ∑ n, x n · exp(-2πi·k·n/N)`. -/
noncomputable def fft {N : ℕ} (x : Fin N → ℂ) : Fin N → ℂ :=
  fun k => ∑ n : Fin N, x n *
    Complex.exp (-(2 * (Real.pi : ℂ) * Complex.I * ((k : ℕ) : ℂ) *
      ((n : ℕ) : ℂ)) / (N : ℂ))

/-- Embedding of `jnp.fft.ifft` (numpy convention):
`x n = (1/N) · ∑ k, X k · exp(2πi·k·n/N)`. -/
noncomputable def ifft {N : ℕ} (x : Fin N → ℂ) : Fin N → ℂ :=
  fun n => ((N : ℂ))⁻¹ * ∑ k : Fin N, x k *
    Complex.exp ((2 * (Real.pi : ℂ) * Complex.I * ((k : ℕ) : ℂ) *
      ((n : ℕ) : ℂ)) / (N : ℂ))

/-- Embedding of `compute_quantum_foam` (quantum_artifacts.py:8-16):
`jnp.abs(jnp.fft.ifft(phase_field)) ** 2`. -/
noncomputable def compute_quantum_foam {N : ℕ} (phase_field : Fin N → ℂ) :
    Fin N → ℝ :=
  fun n => Complex.abs (ifft phase_field n) ^ 2

/-- Modelled from the spec: the claim's description of `compute_quantum_foam`,
the elementwise squared modulus of the inverse Fourier transform. -/
noncomputable def quantum_foam_spec {N : ℕ} (phase_field : Fin N → ℂ) :
    Fin N → ℝ :=
  fun n => Complex.normSq (ifft phase_field n)

/-- The variable `spectral_density` of `compute_entanglement_entropy`
(quantum_artifacts.py:76): `jnp.abs(jnp.fft.fft(phase_field)) ** 2`. -/
noncomputable def spectral_density {N : ℕ} (phase_field : Fin N → ℂ)
    (k : Fin N) : ℝ :=
  Complex.abs (fft phase_field k) ^ 2

/-- The variable `probability_distribution` of `compute_entanglement_entropy`
(quantum_artifacts.py:77): `spectral_density / jnp.sum(spectral_density)`. -/
noncomputable def spectral_probability {N : ℕ} (phase_field : Fin N → ℂ)
    (k : Fin N) : ℝ :=
  spectral_density phase_field k / ∑ j : Fin N, spectral_density phase_field j

/-- Embedding of `compute_entanglement_entropy` (quantum_artifacts.py:68-79):
`-jnp.sum(probability_distribution * jnp.log(probability_distribution + 1e-10))`. -/
noncomputable def compute_entanglement_entropy {N : ℕ}
    (phase_field : Fin N → ℂ) : ℝ :=
  -∑ k : Fin N, spectral_probability phase_field k *
    Real.log (spectral_probability phase_field k + 1e-10)

/-- Modelled from the spec: the claim's formula `-sum(p*log(p))` over the
normalized power spectrum `p` (Shannon entropy, without the `1e-10`
smoothing the code adds inside the logarithm). -/
noncomputable def entanglement_entropy_spec {N : ℕ}
    (phase_field : Fin N → ℂ) : ℝ :=
  -∑ k : Fin N, spectral_probability phase_field k *
    Real.log (spectral_probability phase_field k)

theorem spectral_density_nonneg {N : ℕ} (pf : Fin N → ℂ) (k : Fin N) :
    0 ≤ spectral_density pf k :=
  sq_nonneg _

theorem spectral_probability_nonneg {N : ℕ} (pf : Fin N → ℂ) (k : Fin N) :
    0 ≤ spectral_probability pf k :=
  div_nonneg (spectral_density_nonneg pf k)
    (Finset.sum_nonneg fun j _ => spectral_density_nonneg pf j)

/-- C2: `compute_quantum_foam` computes exactly the elementwise squared
modulus of the inverse Fourier transform of its input. -/
theorem quantum_foam_eq_sq_modulus_ifft {N : ℕ} (phase_field : Fin N → ℂ)
    (n : Fin N) :
    compute_quantum_foam phase_field n = quantum_foam_spec phase_field n :=
  Complex.sq_abs _

/-- C9: every entry of the array returned by `compute_quantum_foam` is a
real number (the codomain of the embedding is `ℝ`) and is nonnegative. -/
theorem quantum_foam_nonneg {N : ℕ} (phase_field : Fin N → ℂ) (n : Fin N) :
    0 ≤ compute_quantum_foam phase_field n :=
  sq_nonneg _

theorem entropy_term_close (p : ℝ) (hp : 0 ≤ p) :
    |p * Real.log p - p * Real.log (p + 1e-10)| ≤ 1e-10 := by
  have hε : (0 : ℝ) < 1e-10 := by norm_num
  rcases eq_or_lt_of_le hp with h0 | hpos
  · rw [← h0]
    simp
    linarith
  · have h1 : Real.log p ≤ Real.log (p + 1e-10) :=
      Real.log_le_log hpos (by linarith)
    have h2 : Real.log (p + 1e-10) - Real.log p ≤ 1e-10 / p := by
      rw [← Real.log_div (by linarith) (ne_of_gt hpos)]
      calc Real.log ((p + 1e-10) / p) ≤ (p + 1e-10) / p - 1 :=
            Real.log_le_sub_one_of_pos (by positivity)
        _ = 1e-10 / p := by field_simp
    rw [← mul_sub, abs_mul, abs_of_pos hpos,
      abs_of_nonpos (by linarith), neg_sub]
    calc p * (Real.log (p + 1e-10) - Real.log p) ≤ p * (1e-10 / p) :=
          mul_le_mul_of_nonneg_left h2 (le_of_lt hpos)
      _ = 1e-10 := by field_simp

/-- C1: `compute_entanglement_entropy` agrees with the Shannon entropy
`-sum(p*log(p))` of the normalized power spectrum up to the `1e-10`
smoothing added inside the logarithm: the difference is at most `N * 1e-10`
for an input of length `N`. -/
theorem entanglement_entropy_close_to_shannon {N : ℕ} (phase_field : Fin N → ℂ) :
    |compute_entanglement_entropy phase_field -
      entanglement_entropy_spec phase_field| ≤ N * 1e-10 := by
  unfold compute_entanglement_entropy entanglement_entropy_spec
  rw [neg_sub_neg, ← Finset.sum_sub_distrib]
  calc |∑ k : Fin N, (spectral_probability phase_field k *
          Real.log (spectral_probability phase_field k) -
        spectral_probability phase_field k *
          Real.log (spectral_probability phase_field k + 1e-10))|
      ≤ ∑ k : Fin N, |spectral_probability phase_field k *
          Real.log (spectral_probability phase_field k) -
        spectral_probability phase_field k *
          Real.log (spectral_probability phase_field k + 1e-10)| :=
        Finset.abs_sum_le_sum_abs _ _
    _ ≤ ∑ _k : Fin N, (1e-10 : ℝ) :=
        Finset.sum_le_sum fun k _ =>
          entropy_term_close _ (spectral_probability_nonneg phase_field k)
    _ = N * 1e-10 := by
        rw [Finset.sum_const, Finset.card_univ, Fintype.card_fin,
          nsmul_eq_mul]

theorem fft_real_smul {N : ℕ} (pf : Fin N → ℂ) (c : ℝ) (k : Fin N) :
    fft (fun n => (c : ℂ) * pf n) k = (c : ℂ) * fft pf k := by
  unfold fft
  rw [Finset.mul_sum]
  exact Finset.sum_congr rfl fun n _ => by ring

theorem spectral_density_real_smul {N : ℕ} (pf : Fin N → ℂ) (c : ℝ)
    (k : Fin N) :
    spectral_density (fun n => (c : ℂ) * pf n) k =
      c ^ 2 * spectral_density pf k := by
  unfold spectral_density
  rw [fft_real_smul, map_mul, mul_pow, Complex.abs_ofReal, sq_abs]

theorem spectral_probability_real_smul {N : ℕ} (pf : Fin N → ℂ) (c : ℝ)
    (hc : c ≠ 0) (k : Fin N) :
    spectral_probability (fun n => (c : ℂ) * pf n) k =
      spectral_probability pf k := by
  unfold spectral_probability
  simp only [spectral_density_real_smul]
  rw [← Finset.mul_sum, mul_div_mul_left _ _ (pow_ne_zero 2 hc)]

/-- C10: `compute_entanglement_entropy` is invariant under rescaling its
input by a nonzero real scalar: the `|c|^2` factor on the power spectrum is
cancelled by the normalization, so the probability distribution — and hence
the entropy — is unchanged. -/
theorem entropy_scale_invariant {N : ℕ} (phase_field : Fin N → ℂ) (c : ℝ)
    (hc : c ≠ 0)
    (hsum : ∑ j : Fin N, spectral_density phase_field j ≠ 0) :
    compute_entanglement_entropy (fun n => (c : ℂ) * phase_field n) =
      compute_entanglement_entropy phase_field := by
  unfold compute_entanglement_entropy
  congr 1
  exact Finset.sum_congr rfl fun k _ => by
    rw [spectral_probability_real_smul phase_field c hc]

theorem fft_e1_eq_one (k : Fin 2) : fft (![1, 0] : Fin 2 → ℂ) k = 1 := by
  unfold fft
  rw [Fin.sum_univ_two]
  simp

theorem sum_spectral_density_e1 :
    ∑ j : Fin 2, spectral_density (![1, 0] : Fin 2 → ℂ) j = 2 := by
  unfold spectral_density
  rw [Fin.sum_univ_two, fft_e1_eq_one, fft_e1_eq_one]
  simp
  norm_num

/-- Witness for C10 at the concrete phase field `[1, 0]` (of length 2, with
total spectral power 2) and the scalar `c = 2`. -/
theorem entropy_scale_invariant_witness :
    ((2 : ℝ) ≠ 0 ∧
      ∑ j : Fin 2, spectral_density (![1, 0] : Fin 2 → ℂ) j ≠ 0) ∧
    compute_entanglement_entropy
        (fun n => ((2 : ℝ) : ℂ) * (![1, 0] : Fin 2 → ℂ) n) =
      compute_entanglement_entropy (![1, 0] : Fin 2 → ℂ) :=
  ⟨⟨by norm_num, by rw [sum_spectral_density_e1]; norm_num⟩,
    entropy_scale_invariant ![1, 0] 2 (by norm_num)
      (by rw [sum_spectral_density_e1]; norm_num)⟩

theorem fft_ones_k0 : fft (![1, 1] : Fin 2 → ℂ) 0 = 2 := by
  unfold fft
  rw [Fin.sum_univ_two]
  simp
  norm_num

theorem fft_ones_k1 : fft (![1, 1] : Fin 2 → ℂ) 1 = 0 := by
  unfold fft
  rw [Fin.sum_univ_two]
  simp only [Matrix.cons_val_zero, Matrix.cons_val_one, Matrix.head_cons,
    Fin.val_zero, Fin.val_one, Nat.cast_zero, Nat.cast_one, Nat.cast_ofNat,
    mul_zero, zero_mul, mul_one, one_mul, neg_zero, zero_div,
    Complex.exp_zero]
  have h2 : ((Nat.succ 1 : ℕ) : ℂ) = 2 := by
    norm_num
  rw [h2]
  have h : -(2 * (Real.pi : ℂ) * Complex.I) / 2 =
      -((Real.pi : ℂ) * Complex.I) := by
    ring
  rw [h, Complex.exp_neg, Complex.exp_pi_mul_I]
  norm_num

theorem spectral_probability_ones_k1 :
    spectral_probability (![1, 1] : Fin 2 → ℂ) 1 = 0 := by
  unfold spectral_probability spectral_density
  rw [fft_ones_k1]
  simp

theorem spectral_probability_ones_k0 :
    spectral_probability (![1, 1] : Fin 2 → ℂ) 0 = 1 := by
  unfold spectral_probability spectral_density
  rw [Fin.sum_univ_two, fft_ones_k0, fft_ones_k1]
  simp

/-- C6 counterexample: at the phase field `[1, 1]` the normalized power
spectrum contains a zero entry (index 1), and yet the returned entropy is
the finite real number `-log(1 + 1e-10)` — the zero entry contributes
`0 * log(0 + 1e-10) = 0` and no non-finite value arises from the logarithm,
because the code adds `1e-10` to its argument. -/
theorem entropy_nonfinite_log_counterexample :
    spectral_probability (![1, 1] : Fin 2 → ℂ) 1 = 0 ∧
    compute_entanglement_entropy (![1, 1] : Fin 2 → ℂ) =
      -Real.log (1 + 1e-10) := by
  refine ⟨spectral_probability_ones_k1, ?_⟩
  unfold compute_entanglement_entropy
  rw [Fin.sum_univ_two, spectral_probability_ones_k0,
    spectral_probability_ones_k1]
  norm_num

/-- C6 (amended): the logarithm inside `compute_entanglement_entropy` is
guarded — the code adds `1e-10` to the normalized spectrum entry before
taking the log, and every entry of the normalized spectrum is nonnegative,
so every argument the logarithm receives is at least `1e-10` (in
particular positive): no non-finite value is produced by the entropy log,
for any input. -/
theorem entropy_log_argument_positive {N : ℕ} (phase_field : Fin N → ℂ)
    (k : Fin N) :
    0 ≤ spectral_probability phase_field k ∧
    (1e-10 : ℝ) ≤ spectral_probability phase_field k + 1e-10 := by
  have h := spectral_probability_nonneg phase_field k
  exact ⟨h, by linarith⟩
